import Mathlib

/-!
Shallow embedding of the session-orchestration code of the FreeRTOS
light-weight MQTT demo (LightWeightMQTTExample.c): the packet-identifier
allocator, the SUBACK subscription tracker, the incoming-packet
dispatcher, the subscribe retry loop, one iteration of the demo task,
and the graceful socket shutdown.

External collaborators that are not part of the embedded source file
(the MQTT wire serializer library and the retry-backoff utility) are
modelled from the specification; each such definition carries a doc
comment that starts with the phrase Modelled from the spec.

Machine integers are modelled as Nat with explicit wraparound (% 65536)
where the code relies on it.  Packet bodies are lists of byte values.
A configASSERT whose condition is false aborts the process; this is
modelled as an explicit fatal outcome.  An out-of-bounds array access,
which is undefined behaviour in the C source, is modelled as its own
explicit outcome.
-/

namespace LightWeightMQTT

/-- MQTT control packet type byte for CONNACK. -/
def MQTT_PACKET_TYPE_CONNACK : Nat := 0x20

/-- MQTT control packet type byte for PUBLISH (high nibble). -/
def MQTT_PACKET_TYPE_PUBLISH : Nat := 0x30

/-- MQTT control packet type byte for SUBACK. -/
def MQTT_PACKET_TYPE_SUBACK : Nat := 0x90

/-- MQTT control packet type byte for UNSUBACK. -/
def MQTT_PACKET_TYPE_UNSUBACK : Nat := 0xB0

/-- MQTT control packet type byte for PINGRESP. -/
def MQTT_PACKET_TYPE_PINGRESP : Nat := 0xD0

/-- Capacity of the shared static buffer (mqttexampleSHARED_BUFFER_SIZE). -/
def mqttexampleSHARED_BUFFER_SIZE : Nat := 500

/-- Bound on the receive polls of the graceful shutdown
(mqttexampleMAX_SOCKET_SHUTDOWN_LOOPS). -/
def mqttexampleMAX_SOCKET_SHUTDOWN_LOOPS : Nat := 3

/-- Number of publish/keep-alive rounds per demo iteration
(ulMaxPublishCount in prvMQTTDemoTask). -/
def ulMaxPublishCount : Nat := 5

/-- The mutable file-scope state of the demo: the allocator's static
counter usPacketId (local static of prvGetNextPacketIdentifier), the two
remembered outstanding packet identifiers, and the SUBACK success flags
of xTopicFilterContext (one Bool per topic filter; the filter strings
are compile-time constants and are not part of the mutable state). -/
structure GlobalState where
  usPacketId : Nat
  usSubscribePacketIdentifier : Nat
  usUnsubscribePacketIdentifier : Nat
  xTopicFilterContext : List Bool
deriving DecidableEq

/-- prvGetNextPacketIdentifier: increments the static 16-bit counter,
skipping 0 on wraparound.  Returns (returned value, new counter value);
the two coincide because the function returns the updated static. -/
def prvGetNextPacketIdentifier (usPacketId : Nat) : Nat × Nat :=
  let u := (usPacketId + 1) % 65536
  let u2 := if u = 0 then 1 else u
  (u2, u2)

/-- One advance of the allocator's static counter. -/
def allocStep (c : Nat) : Nat := (prvGetNextPacketIdentifier c).2

/-- The allocator's static counter after n calls, starting from its
initial value 0. -/
def packetIdState : Nat → Nat
  | 0 => 0
  | n + 1 => (prvGetNextPacketIdentifier (packetIdState n)).2

/-- The value returned by the n-th allocator call (0-indexed): the
counter after n + 1 calls, since the function returns the updated
static. -/
def packetIdReturned (n : Nat) : Nat := packetIdState (n + 1)

/-- Result of the SUBACK status update over the topic-filter context:
the updated flags, a failed entry configASSERT, or an out-of-bounds
access (undefined behaviour in the C source). -/
inductive SubAckUpdate
  | ok (ctx : List Bool)
  | assertFail
  | oob
deriving DecidableEq

/-- Status-byte loop of prvMQTTUpdateSubAckStatus.  The source reads the
status for context entry ulTopicCount at payload offset ulTopicCount * 2
(its comment says the status code consists of two bytes) and writes
entry ulTopicCount of xTopicFilterContext, with no bounds check on
either access; an access past either end is undefined behaviour and is
reported as oob.  A status byte with the top bit (0x80) set clears the
flag, any other value sets it.  Recursion is on the number of loop
iterations left (ulSize - ulTopicCount). -/
def subAckLoop (pucPayload : List Nat) (ctx : List Bool)
    (ulTopicCount : Nat) : Nat → SubAckUpdate
  | 0 => .ok ctx
  | remaining + 1 =>
    match pucPayload.get? (ulTopicCount * 2) with
    | none => .oob
    | some b =>
      if ulTopicCount < ctx.length then
        subAckLoop pucPayload (ctx.set ulTopicCount (b &&& 0x80 == 0))
          (ulTopicCount + 1) remaining
      else .oob

/-- prvMQTTUpdateSubAckStatus: configASSERTs that the packet is a SUBACK
with remaining length at least 3 (two identifier bytes plus at least one
status byte), then runs the status loop over the ulSize =
remainingLength - 2 bytes that follow the identifier.  The remaining
length equals the length of pRemainingData because the dispatcher reads
exactly remainingLength bytes into the shared buffer. -/
def prvMQTTUpdateSubAckStatus (ty : Nat) (pRemainingData : List Nat)
    (ctx : List Bool) : SubAckUpdate :=
  if ty = MQTT_PACKET_TYPE_SUBACK ∧ 3 ≤ pRemainingData.length then
    subAckLoop (pRemainingData.drop 2) ctx 0 (pRemainingData.length - 2)
  else .assertFail

/-- prvMQTTProcessResponse: switches on the packet type.  SUBACK and
UNSUBACK configASSERT that the received identifier matches the
remembered outstanding identifier of the corresponding request (a
mismatch is fatal); PINGRESP is accepted with no identifier check; the
default branch only emits a LogWarn and falls through (no configASSERT).
Returns (an assert fired, an identifier comparison was performed).  The
SUBACK branch additionally walks the topic-filter flags purely for
logging, which touches no state. -/
def prvMQTTProcessResponse (ty usPacketId subId unsubId : Nat) :
    Bool × Bool :=
  if ty = MQTT_PACKET_TYPE_SUBACK then (subId != usPacketId, true)
  else if ty = MQTT_PACKET_TYPE_UNSUBACK then (unsubId != usPacketId, true)
  else if ty = MQTT_PACKET_TYPE_PINGRESP then (false, false)
  else (false, false)

/-- Decoded QoS-0 publish: topic name bytes and payload bytes. -/
structure MQTTPublishInfo where
  topicName : List Nat
  payload : List Nat
deriving DecidableEq

/-- Modelled from the spec: the wire-decode collaborator
MQTT_DeserializePublish of the serializer library, which is not part of
the embedded source file.  For a QoS-0 publish the body is a two-byte
topic name length, the topic name bytes, then the payload; a body of any
other shape, or a nonzero QoS in the type byte (outside this demo's
QoS-0 scope), is a decode failure. -/
def MQTT_DeserializePublish (ty : Nat) (data : List Nat) :
    Option MQTTPublishInfo :=
  if (ty / 2) % 4 ≠ 0 then none
  else
    match data with
    | hi :: lo :: rest =>
      let tl := hi * 256 + lo
      if tl ≤ rest.length then some ⟨rest.take tl, rest.drop tl⟩ else none
    | _ => none

/-- Modelled from the spec: the generic acknowledgement decode
MQTT_DeserializeAck of the serializer library, called by the dispatcher
with a null session-present pointer.  A SUBACK carries a two-byte
identifier plus at least one status byte, an UNSUBACK exactly a two-byte
identifier, a PINGRESP an empty body; anything else is rejected (a
CONNACK needs a session-present pointer, other types are not
acknowledgements the dispatcher expects). -/
def MQTT_DeserializeAck (ty : Nat) (data : List Nat) : Option Nat :=
  if ty = MQTT_PACKET_TYPE_SUBACK then
    match data with
    | hi :: lo :: _ :: _ => some (hi * 256 + lo)
    | _ => none
  else if ty = MQTT_PACKET_TYPE_UNSUBACK then
    match data with
    | [hi, lo] => some (hi * 256 + lo)
    | _ => none
  else if ty = MQTT_PACKET_TYPE_PINGRESP then
    match data with
    | [] => some 0
    | _ => none
  else none

/-- prvMQTTProcessIncomingPublish: logs the publish and reports whether
the received topic name equals the configured topic byte-for-byte
(length check plus strncmp); the branch exists purely for logging and no
session state is touched either way. -/
def prvMQTTProcessIncomingPublish (mqttexampleTOPIC : List Nat)
    (info : MQTTPublishInfo) : Bool :=
  info.topicName.length == mqttexampleTOPIC.length &&
    info.topicName == mqttexampleTOPIC

/-- Outcome of MQTT_GetIncomingPacketTypeAndLength: either no data is
currently available on the transport, or a header was read giving the
packet type and remaining length, the body being the data bytes that a
subsequent body read would fetch (remaining length = data.length). -/
inductive IncomingResult
  | noData
  | packet (ty : Nat) (data : List Nat)
deriving DecidableEq

/-- Which handler the dispatcher routed the packet to. -/
inductive Route
  | publish
  | response
deriving DecidableEq

/-- Observable outcome of one dispatcher invocation: whether a
configASSERT fired (or undefined behaviour was reached), which handler
the packet was routed to (none if no routing happened), whether a body
read from the transport was performed, whether a packet-identifier
comparison was performed, and the resulting global state. -/
structure DispatchResult where
  fatal : Bool
  route : Option Route
  bodyRead : Bool
  idCheck : Bool
  state : GlobalState
deriving DecidableEq

/-- prvMQTTProcessIncomingPacket: reads the header; on no data it
returns at once having done nothing.  Otherwise it configASSERTs the
remaining length fits the shared buffer, reads the body if the remaining
length is positive, and classifies: a type whose high nibble is PUBLISH
is decoded as a publish (decode failure is a fatal configASSERT) and
handed to prvMQTTProcessIncomingPublish; anything else is decoded as a
generic acknowledgement (decode failure is a fatal configASSERT), a
SUBACK first updates the subscription tracker (whose failed assert or
out-of-bounds access is fatal), and the acknowledgement is handed to
prvMQTTProcessResponse. -/
def prvMQTTProcessIncomingPacket (topic : List Nat) (inc : IncomingResult)
    (s : GlobalState) : DispatchResult :=
  match inc with
  | .noData => ⟨false, none, false, false, s⟩
  | .packet ty data =>
    if mqttexampleSHARED_BUFFER_SIZE < data.length then
      ⟨true, none, false, false, s⟩
    else
      if ty &&& 0xf0 = MQTT_PACKET_TYPE_PUBLISH then
        match MQTT_DeserializePublish ty data with
        | none => ⟨true, none, decide (0 < data.length), false, s⟩
        | some info =>
          let _ := prvMQTTProcessIncomingPublish topic info
          ⟨false, some .publish, decide (0 < data.length), false, s⟩
      else
        match MQTT_DeserializeAck ty data with
        | none => ⟨true, none, decide (0 < data.length), false, s⟩
        | some usPacketId =>
          if ty = MQTT_PACKET_TYPE_SUBACK then
            match prvMQTTUpdateSubAckStatus ty data s.xTopicFilterContext with
            | .ok ctx =>
              let s2 : GlobalState := { s with xTopicFilterContext := ctx }
              let pr := prvMQTTProcessResponse ty usPacketId
                s2.usSubscribePacketIdentifier
                s2.usUnsubscribePacketIdentifier
              ⟨pr.1, some .response, decide (0 < data.length), pr.2, s2⟩
            | _ => ⟨true, none, decide (0 < data.length), false, s⟩
          else
            let pr := prvMQTTProcessResponse ty usPacketId
              s.usSubscribePacketIdentifier s.usUnsubscribePacketIdentifier
            ⟨pr.1, some .response, decide (0 < data.length), pr.2, s⟩

/-- prvMQTTSubscribeToTopic: allocates a fresh packet identifier into
usSubscribePacketIdentifier and sends the SUBSCRIBE (the send itself
touches no modelled state; its configASSERTs on packet size and send
status concern the external serializer and transport). -/
def prvMQTTSubscribeToTopic (s : GlobalState) : GlobalState :=
  let r := prvGetNextPacketIdentifier s.usPacketId
  { s with usPacketId := r.2, usSubscribePacketIdentifier := r.1 }

/-- prvMQTTUnsubscribeFromTopic: allocates a fresh packet identifier
into usUnsubscribePacketIdentifier and sends the UNSUBSCRIBE. -/
def prvMQTTUnsubscribeFromTopic (s : GlobalState) : GlobalState :=
  let r := prvGetNextPacketIdentifier s.usPacketId
  { s with usPacketId := r.2, usUnsubscribePacketIdentifier := r.1 }

/-- Status of the external retry utility. -/
inductive RetryUtilsStatus
  | success
  | retriesExhausted
deriving DecidableEq

/-- Modelled from the spec: the external backoff utility
RetryUtils_BackoffAndSleep advances the retry state and sleeps the
computed delay, signalling exhaustion once the configured attempt cap is
spent.  Returns the status and the new attempt count. -/
def RetryUtils_BackoffAndSleep (attemptsDone maxRetryAttempts : Nat) :
    RetryUtilsStatus × Nat :=
  if attemptsDone < maxRetryAttempts then (.success, attemptsDone + 1)
  else (.retriesExhausted, attemptsDone)

/-- Outcome of the subscribe retry loop: normal exit with the resulting
state and next trace index, a fired configASSERT (identifier mismatch,
bad packet, or retries exhausted), or fuel ran out while the do-while
condition still held. -/
inductive SubscribeOutcome
  | ok (s : GlobalState) (idx : Nat)
  | assertFailed
  | outOfFuel
deriving DecidableEq

/-- Do-while body of prvMQTTSubscribeWithBackoffRetries: send a
SUBSCRIBE, process exactly one incoming packet, scan the topic-filter
flags; on the first flag still false set xFailedSubscribeToTopic (never
cleared by the source) and back off once; configASSERT the retry status
is not exhausted; loop while xFailedSubscribeToTopic is set and the
retry status is success.  The trailing count of each pair is the number
of SUBSCRIBE sends so far. -/
def subscribeRetryLoop (topic : List Nat) (maxRetryAttempts : Nat)
    (pkts : Nat → IncomingResult) :
    Nat → Nat → GlobalState → Bool → RetryUtilsStatus → Nat → Nat →
      SubscribeOutcome × Nat
  | 0, _, _, _, _, _, sends => (.outOfFuel, sends)
  | fuel + 1, idx, s, xFailedSubscribeToTopic, xRetryUtilsStatus,
      attemptsDone, sends =>
    let s1 := prvMQTTSubscribeToTopic s
    let d := prvMQTTProcessIncomingPacket topic (pkts idx) s1
    if d.fatal then (.assertFailed, sends + 1)
    else
      let s2 := d.state
      let st :=
        if s2.xTopicFilterContext.contains false then
          let b := RetryUtils_BackoffAndSleep attemptsDone maxRetryAttempts
          (true, b.1, b.2)
        else (xFailedSubscribeToTopic, xRetryUtilsStatus, attemptsDone)
      if st.2.1 = RetryUtilsStatus.retriesExhausted then
        (.assertFailed, sends + 1)
      else if st.1 = true ∧ st.2.1 = RetryUtilsStatus.success then
        subscribeRetryLoop topic maxRetryAttempts pkts fuel (idx + 1) s2
          st.1 st.2.1 st.2.2 (sends + 1)
      else (.ok s2 (idx + 1), sends + 1)

/-- prvMQTTSubscribeWithBackoffRetries: resets the retry state and runs
the do-while loop with xFailedSubscribeToTopic initially false. -/
def prvMQTTSubscribeWithBackoffRetries (topic : List Nat)
    (maxRetryAttempts fuel : Nat) (pkts : Nat → IncomingResult)
    (idx : Nat) (s : GlobalState) : SubscribeOutcome × Nat :=
  subscribeRetryLoop topic maxRetryAttempts pkts fuel idx s false
    .success 0 0

/-- Modelled from the spec: CONNACK decode via MQTT_DeserializeAck with
a session-present pointer — a two-byte body, acknowledge flags then a
return code, return code zero meaning the connection was accepted. -/
def MQTT_DeserializeConnack (data : List Nat) : Bool :=
  match data with
  | [_, 0] => true
  | _ => false

/-- prvCreateMQTTConnectionWithBroker: sends CONNECT and blocks for one
response; returns true when one of its configASSERTs fires (header read
failed or no data, wrong packet type, remaining length over the buffer,
CONNACK decode failed).  No modelled global state is touched. -/
def prvCreateMQTTConnectionWithBroker (inc : IncomingResult) : Bool :=
  match inc with
  | .noData => true
  | .packet ty data =>
    !(ty == MQTT_PACKET_TYPE_CONNACK &&
      decide (data.length ≤ mqttexampleSHARED_BUFFER_SIZE) &&
      MQTT_DeserializeConnack data)

/-- Publish/keep-alive loop of prvMQTTDemoTask: each round publishes
(QoS 0, no state change), processes one incoming packet, sleeps, sends
PINGREQ (no state change) and processes one more incoming packet; none
is fatal or the iteration aborts (modelled as none). -/
def demoPublishKeepAliveLoop (topic : List Nat)
    (pkts : Nat → IncomingResult) :
    Nat → Nat → GlobalState → Option (GlobalState × Nat)
  | 0, idx, s => some (s, idx)
  | n + 1, idx, s =>
    let d1 := prvMQTTProcessIncomingPacket topic (pkts idx) s
    if d1.fatal then none
    else
      let d2 := prvMQTTProcessIncomingPacket topic (pkts (idx + 1)) d1.state
      if d2.fatal then none
      else demoPublishKeepAliveLoop topic pkts n (idx + 2) d2.state

/-- One iteration of the prvMQTTDemoTask forever-loop: connect (the
transport retry loop touches no modelled state), CONNECT/CONNACK
handshake, subscribe with retries, ulMaxPublishCount publish/keep-alive
rounds, UNSUBSCRIBE and its response, DISCONNECT and graceful shutdown
(no modelled state), and finally the unconditional reset of every
topic-filter success flag to false.  Returns the resulting state and
next trace index, or none when a configASSERT fired (or the subscribe
loop ran out of fuel).  pkts is the stream of incoming packets the
broker delivers; idx is the index of the next one. -/
def prvMQTTDemoTaskIteration (topic : List Nat)
    (maxRetryAttempts fuel : Nat) (pkts : Nat → IncomingResult)
    (idx : Nat) (s : GlobalState) : Option (GlobalState × Nat) :=
  if prvCreateMQTTConnectionWithBroker (pkts idx) then none
  else
    match prvMQTTSubscribeWithBackoffRetries topic maxRetryAttempts fuel
        pkts (idx + 1) s with
    | (.ok s1 idx1, _) =>
      match demoPublishKeepAliveLoop topic pkts ulMaxPublishCount idx1 s1 with
      | none => none
      | some (s2, idx2) =>
        let s3 := prvMQTTUnsubscribeFromTopic s2
        let d := prvMQTTProcessIncomingPacket topic (pkts idx2) s3
        if d.fatal then none
        else
          let s4 := d.state
          some ({ s4 with xTopicFilterContext :=
            s4.xTopicFilterContext.map (fun _ => false) }, idx2 + 1)
    | _ => none

/-- Observable behaviour of one prvGracefulShutDown call: whether the
half-close was initiated, how many receive polls were made, how many
inter-poll sleeps, and whether the socket was closed. -/
structure ShutdownTrace where
  didShutdown : Bool
  polls : Nat
  sleeps : Nat
  didClose : Bool
deriving DecidableEq

/-- Receive-polling loop of prvGracefulShutDown: while the receive
result is non-negative, sleep the short delay and stop once the
incremented xShutdownLoopCount reaches the bound.  recv gives the result
of the i-th FreeRTOS_recv call; the returned pair is (polls, sleeps).
The fuel only bounds the recursion: the C loop strictly increments
xShutdownLoopCount and breaks at the bound, so fuel equal to the bound
is never exhausted. -/
def shutdownRecvLoop (recv : Nat → Int) :
    Nat → Nat → Nat → Nat → Nat × Nat
  | _, polls, sleeps, 0 => (polls, sleeps)
  | xShutdownLoopCount, polls, sleeps, fuel + 1 =>
    if recv polls < 0 then (polls + 1, sleeps)
    else if mqttexampleMAX_SOCKET_SHUTDOWN_LOOPS ≤ xShutdownLoopCount + 1 then
      (polls + 1, sleeps + 1)
    else
      shutdownRecvLoop recv (xShutdownLoopCount + 1) (polls + 1)
        (sleeps + 1) fuel

/-- prvGracefulShutDown: for a non-null, valid socket, initiate the
read+write half-close, poll receive until it reports the connection
invalid (negative result) or the poll bound is reached, then close the
socket unconditionally.  A null or invalid socket is left untouched. -/
def prvGracefulShutDown (xSocketNonNull xSocketValid : Bool)
    (recv : Nat → Int) : ShutdownTrace :=
  if xSocketNonNull && xSocketValid then
    let r := shutdownRecvLoop recv 0 0 0 mqttexampleMAX_SOCKET_SHUTDOWN_LOOPS
    ⟨true, r.1, r.2, true⟩
  else ⟨false, 0, 0, false⟩

/-- Initial global state of the demo process: counter 0, no outstanding
identifiers, the single configured topic filter unacknowledged. -/
def sInit : GlobalState := ⟨0, 0, 0, [false]⟩

/-- Broker trace for the subscribe-retry episode of claim C2: the i-th
incoming packet is a SUBACK for the identifier issued by the i-th
SUBSCRIBE (identifiers are 1, 2, ... from the initial counter), whose
single status byte is 0x80 (rejected) on the first attempt and 0x00
(accepted) afterwards. -/
def pktsRetryEpisode : Nat → IncomingResult := fun i =>
  IncomingResult.packet MQTT_PACKET_TYPE_SUBACK
    [0, i + 1, if i = 0 then 0x80 else 0x00]

/-- Broker trace for one fully successful demo iteration: CONNACK, an
accepting SUBACK for identifier 1, five rounds of an echoed QoS-0
PUBLISH (topic byte 116) followed by a PINGRESP, and an UNSUBACK for
identifier 2. -/
def pktsFullSession : Nat → IncomingResult := fun i =>
  if i = 0 then .packet MQTT_PACKET_TYPE_CONNACK [0, 0]
  else if i = 1 then .packet MQTT_PACKET_TYPE_SUBACK [0, 1, 0]
  else if i = 12 then .packet MQTT_PACKET_TYPE_UNSUBACK [0, 2]
  else if i % 2 = 0 then .packet MQTT_PACKET_TYPE_PUBLISH [0, 1, 116]
  else .packet MQTT_PACKET_TYPE_PINGRESP []

/-- A second copy of the successful-session broker trace, used by the
allocator claim's witness so the two claims stay independent. -/
def pktsSessionB : Nat → IncomingResult := fun i =>
  if i = 0 then .packet MQTT_PACKET_TYPE_CONNACK [0, 0]
  else if i = 1 then .packet MQTT_PACKET_TYPE_SUBACK [0, 1, 0]
  else if i = 12 then .packet MQTT_PACKET_TYPE_UNSUBACK [0, 2]
  else if i % 2 = 0 then .packet MQTT_PACKET_TYPE_PUBLISH [0, 1, 116]
  else .packet MQTT_PACKET_TYPE_PINGRESP []

/-- The dispatcher never touches the allocator's counter: whatever the
incoming packet, the state it returns has the usPacketId it was given. -/
theorem dispatch_usPacketId (topic : List Nat) (inc : IncomingResult)
    (s : GlobalState) :
    (prvMQTTProcessIncomingPacket topic inc s).state.usPacketId =
      s.usPacketId := by
  cases inc with
  | noData => rfl
  | packet ty data =>
    unfold prvMQTTProcessIncomingPacket
    repeat' split
    all_goals rfl

/-- Claim C1.  The SUBACK status update does not read the i-th status
byte for entry i: it reads payload offset i * 2, so on the spec's own
test vector (payload bytes [idHi, idLo, 0x00, 0x80, 0x01] over a
3-filter context) it overruns the 3 status bytes at entry 2 — undefined
behaviour — instead of producing the flags [true, false, true] the claim
requires (entry 1 would moreover be read from byte 0x01, i.e. accepted,
not from 0x80). -/
theorem claim_C1 :
    prvMQTTUpdateSubAckStatus MQTT_PACKET_TYPE_SUBACK
      [0, 1, 0x00, 0x80, 0x01] [false, false, false] = SubAckUpdate.oob := by
  decide

/-- Claim C2.  In the episode where the broker rejects the first SUBACK
(0x80) and accepts the second (0x00), the subscribe retry loop does not
terminate after 2 SUBSCRIBE sends: xFailedSubscribeToTopic is never
cleared, so after the accepting second SUBACK the do-while condition
still holds (run with fuel 2 ends out of fuel, not ok) and a third
SUBSCRIBE is sent (run with fuel 3 makes 3 sends). -/
theorem claim_C2 :
    prvMQTTSubscribeWithBackoffRetries [] 10 2 pktsRetryEpisode 0 sInit =
      (SubscribeOutcome.outOfFuel, 2) ∧
    (prvMQTTSubscribeWithBackoffRetries [] 10 3 pktsRetryEpisode 0 sInit).2 =
      3 := by
  constructor
  · decide
  · decide

/-- Claim C3, counterexample.  A fully successful demo iteration from
the initial state ends with usSubscribePacketIdentifier = 1, not the 0
it started with: the remembered subscribe (and unsubscribe) identifiers
are not reset at the end of an iteration, contradicting the claim that
every piece of mutable state other than the allocator counter regains
its start-of-iteration value. -/
theorem claim_C3_counterexample :
    prvMQTTDemoTaskIteration [116] 10 4 pktsFullSession 0 sInit =
      some (⟨2, 1, 2, [false]⟩, 13) ∧
    sInit.usSubscribePacketIdentifier ≠ 1 := by
  constructor
  · decide
  · decide

/-- Claim C3 (amended).  After every completed demo-task iteration all
topic-filter success flags are false again (the final reset loop runs
unconditionally); the allocator counter and the two remembered packet
identifiers are the state that survives into the next iteration. -/
theorem claim_C3 (topic : List Nat) (maxRetryAttempts fuel : Nat)
    (pkts : Nat → IncomingResult) (idx : Nat) (s s' : GlobalState)
    (idx' : Nat)
    (h : prvMQTTDemoTaskIteration topic maxRetryAttempts fuel pkts idx s =
      some (s', idx')) :
    s'.xTopicFilterContext.all (fun b => b == false) = true := by
  unfold prvMQTTDemoTaskIteration at h
  split at h
  · exact absurd h (by simp)
  · split at h
    · split at h
      · exact absurd h (by simp)
      · dsimp only at h
        split at h
        · exact absurd h (by simp)
        · injection h with h'
          injection h' with h1 h2
          subst h1
          simp [List.all_eq_true]
    · exact absurd h (by simp)

/-- Claim C3, witness: the amended theorem applied to the concrete
successful session trace. -/
theorem claim_C3_witness :
    (GlobalState.mk 2 1 2 [false]).xTopicFilterContext.all
      (fun b => b == false) = true :=
  claim_C3 [116] 10 4 pktsFullSession 0 sInit ⟨2, 1, 2, [false]⟩ 13
    (by decide)

/-- Claim C5, counterexample.  A PUBACK (type 0x40) handed to response
handling with arbitrary identifiers fires no configASSERT: the default
branch of prvMQTTProcessResponse only logs a warning, so a packet type
other than SUBACK, UNSUBACK, PINGRESP is not fatal there, contrary to
the claim. -/
theorem claim_C5_counterexample :
    prvMQTTProcessResponse 0x40 7 1 2 = (false, false) := by
  decide

/-- Claim C5 (amended).  For every acknowledgement routed to response
handling: a SUBACK is fatal exactly when the identifier differs from the
remembered subscribe identifier, an UNSUBACK exactly when it differs
from the remembered unsubscribe identifier (both perform the identifier
comparison), a PINGRESP is accepted with no identifier check, and a
packet of any other type is merely logged and accepted (not fatal, no
identifier check). -/
theorem claim_C5 (ty usPacketId subId unsubId : Nat) :
    (ty = MQTT_PACKET_TYPE_SUBACK →
      prvMQTTProcessResponse ty usPacketId subId unsubId =
        (subId != usPacketId, true)) ∧
    (ty = MQTT_PACKET_TYPE_UNSUBACK →
      prvMQTTProcessResponse ty usPacketId subId unsubId =
        (unsubId != usPacketId, true)) ∧
    (ty = MQTT_PACKET_TYPE_PINGRESP →
      prvMQTTProcessResponse ty usPacketId subId unsubId =
        (false, false)) ∧
    (ty ≠ MQTT_PACKET_TYPE_SUBACK → ty ≠ MQTT_PACKET_TYPE_UNSUBACK →
      ty ≠ MQTT_PACKET_TYPE_PINGRESP →
      prvMQTTProcessResponse ty usPacketId subId unsubId =
        (false, false)) := by
  refine ⟨fun h => ?_, fun h => ?_, fun h => ?_, fun h1 h2 h3 => ?_⟩
  · simp [prvMQTTProcessResponse, h]
  · simp [prvMQTTProcessResponse, h, MQTT_PACKET_TYPE_SUBACK,
      MQTT_PACKET_TYPE_UNSUBACK]
  · simp [prvMQTTProcessResponse, h, MQTT_PACKET_TYPE_SUBACK,
      MQTT_PACKET_TYPE_UNSUBACK, MQTT_PACKET_TYPE_PINGRESP]
  · simp [prvMQTTProcessResponse, h1, h2, h3]

/-- Claim C5, witness: the amended theorem applied at a PINGRESP with
concrete identifiers. -/
theorem claim_C5_witness :
    prvMQTTProcessResponse 0xD0 9 4 5 = (false, false) :=
  (claim_C5 0xD0 9 4 5).2.2.1 rfl

/-- Claim C7.  A packet whose header reads type PINGRESP with remaining
length 0 is routed to response handling with no body read, no fatal
assert and no state change. -/
theorem claim_C7 (topic : List Nat) (s : GlobalState) :
    prvMQTTProcessIncomingPacket topic
      (IncomingResult.packet MQTT_PACKET_TYPE_PINGRESP []) s =
    ⟨false, some Route.response, false, false, s⟩ := rfl

/-- Claim C9.  When the header read reports no data available, the
dispatcher returns at once: not fatal, nothing routed, no body read, no
identifier check, state untouched. -/
theorem claim_C9 (topic : List Nat) (s : GlobalState) :
    prvMQTTProcessIncomingPacket topic IncomingResult.noData s =
      ⟨false, none, false, false, s⟩ := rfl

/-- The allocator's static counter never exceeds 65535. -/
theorem packetIdState_le (n : Nat) : packetIdState n ≤ 65535 := by
  cases n with
  | zero => simp [packetIdState]
  | succ n =>
    unfold packetIdState prvGetNextPacketIdentifier
    dsimp only
    split
    · omega
    · have := Nat.mod_lt (packetIdState n + 1) (show 0 < 65536 by omega)
      omega

/-- Value of one allocator call from a 16-bit counter value: the
successor, except that from 65535 it wraps to 1. -/
theorem prvGetNextPacketIdentifier_val (c : Nat) (hc : c ≤ 65535) :
    (prvGetNextPacketIdentifier c).2 = if c = 65535 then 1 else c + 1 := by
  unfold prvGetNextPacketIdentifier
  dsimp only
  by_cases h : c = 65535
  · subst h
    decide
  · have h1 : c + 1 < 65536 := by omega
    rw [Nat.mod_eq_of_lt h1]
    simp [h]

/-- The subscribe retry loop only ever advances the allocator counter
through prvGetNextPacketIdentifier: on normal exit the final counter is
some number of allocator steps from the starting one. -/
theorem subscribeRetryLoop_usPacketId (topic : List Nat) (m : Nat)
    (pkts : Nat → IncomingResult) :
    ∀ (fuel idx : Nat) (s : GlobalState) (f : Bool)
      (st : RetryUtilsStatus) (a sends : Nat) (s1 : GlobalState)
      (idx1 sends1 : Nat),
      subscribeRetryLoop topic m pkts fuel idx s f st a sends =
        (.ok s1 idx1, sends1) →
      ∃ k, s1.usPacketId = allocStep^[k] s.usPacketId := by
  intro fuel
  induction fuel with
  | zero =>
    intro idx s f st a sends s1 idx1 sends1 h
    exact absurd h (by simp [subscribeRetryLoop])
  | succ fuel ih =>
    intro idx s f st a sends s1 idx1 sends1 h
    unfold subscribeRetryLoop at h
    dsimp only at h
    split at h
    · exact absurd h (by simp)
    · split at h
      all_goals
        dsimp only at h
        split at h
        · exact absurd h (by simp)
        · split at h
          · obtain ⟨k, hk⟩ := ih _ _ _ _ _ _ _ _ _ h
            refine ⟨k + 1, ?_⟩
            rw [Function.iterate_succ_apply, hk, dispatch_usPacketId]
            rfl
          · injection h with h' h''
            injection h' with h1 h2
            subst h1
            refine ⟨1, ?_⟩
            rw [Function.iterate_one, dispatch_usPacketId]
            rfl

/-- The publish/keep-alive loop never touches the allocator counter. -/
theorem demoPublishKeepAliveLoop_usPacketId (topic : List Nat)
    (pkts : Nat → IncomingResult) :
    ∀ (n idx : Nat) (s : GlobalState) (s2 : GlobalState) (idx2 : Nat),
      demoPublishKeepAliveLoop topic pkts n idx s = some (s2, idx2) →
      s2.usPacketId = s.usPacketId := by
  intro n
  induction n with
  | zero =>
    intro idx s s2 idx2 h
    unfold demoPublishKeepAliveLoop at h
    injection h with h'
    injection h' with h1 h2
    subst h1
    rfl
  | succ n ih =>
    intro idx s s2 idx2 h
    unfold demoPublishKeepAliveLoop at h
    dsimp only at h
    split at h
    · exact absurd h (by simp)
    · split at h
      · exact absurd h (by simp)
      · rw [ih _ _ _ _ h, dispatch_usPacketId, dispatch_usPacketId]

/-- Claim C4.  First part: the allocator never returns 0 and each
returned value is the successor of the previously issued one, except
that the value after 65535 is 1.  Second part: the counter is
process-wide — a completed demo-task iteration leaves it at some number
of allocator steps from where it started, never reset to a fixed
value. -/
theorem claim_C4 :
    (∀ n, packetIdReturned n ≠ 0 ∧
      packetIdReturned (n + 1) =
        (if packetIdReturned n = 65535 then 1
          else packetIdReturned n + 1)) ∧
    (∀ (topic : List Nat) (maxRetryAttempts fuel : Nat)
        (pkts : Nat → IncomingResult) (idx : Nat) (s s' : GlobalState)
        (idx' : Nat),
      prvMQTTDemoTaskIteration topic maxRetryAttempts fuel pkts idx s =
        some (s', idx') →
      ∃ k, s'.usPacketId = allocStep^[k] s.usPacketId) := by
  constructor
  · intro n
    constructor
    · show packetIdState (n + 1) ≠ 0
      unfold packetIdState prvGetNextPacketIdentifier
      dsimp only
      split
      · omega
      · assumption
    · show packetIdState (n + 2) = _
      have h2 : packetIdState (n + 2) =
          (prvGetNextPacketIdentifier (packetIdState (n + 1))).2 := rfl
      rw [h2, prvGetNextPacketIdentifier_val _ (packetIdState_le (n + 1))]
      rfl
  · intro topic maxRetryAttempts fuel pkts idx s s' idx' h
    unfold prvMQTTDemoTaskIteration at h
    split at h
    · exact absurd h (by simp)
    · split at h
      · split at h
        · exact absurd h (by simp)
        · dsimp only at h
          split at h
          · exact absurd h (by simp)
          · injection h with h'
            injection h' with h1 h2
            subst h1
            obtain ⟨k, hk⟩ :=
              subscribeRetryLoop_usPacketId topic maxRetryAttempts pkts
                _ _ _ _ _ _ _ _ _ _ (by assumption)
            refine ⟨k + 1, ?_⟩
            show (prvMQTTProcessIncomingPacket _ _
              (prvMQTTUnsubscribeFromTopic _)).state.usPacketId = _
            rw [dispatch_usPacketId]
            show (prvGetNextPacketIdentifier _).2 = _
            rw [demoPublishKeepAliveLoop_usPacketId topic pkts _ _ _ _ _
              (by assumption)]
            rw [hk]
            rw [Function.iterate_succ_apply']
            rfl
      · exact absurd h (by simp)

/-- Claim C4, witness: the sequence facts at call 0 and the
never-reset fact at the concrete successful session trace (counter 0
advances to 2 = two allocator steps). -/
theorem claim_C4_witness :
    packetIdReturned 0 ≠ 0 ∧
      (∃ k, (GlobalState.mk 2 1 2 [false]).usPacketId =
        allocStep^[k] sInit.usPacketId) :=
  ⟨(claim_C4.1 0).1,
    claim_C4.2 [116] 10 4 pktsSessionB 0 sInit ⟨2, 1, 2, [false]⟩ 13
      (by decide)⟩

/-- One unfolding of the shutdown receive loop at fuel 3. -/
theorem shutdownRecvLoop_step3 (recv : Nat → Int) (c p sl : Nat) :
    shutdownRecvLoop recv c p sl 3 =
      if recv p < 0 then (p + 1, sl)
      else if mqttexampleMAX_SOCKET_SHUTDOWN_LOOPS ≤ c + 1 then
        (p + 1, sl + 1)
      else shutdownRecvLoop recv (c + 1) (p + 1) (sl + 1) 2 := rfl

/-- One unfolding of the shutdown receive loop at fuel 2. -/
theorem shutdownRecvLoop_step2 (recv : Nat → Int) (c p sl : Nat) :
    shutdownRecvLoop recv c p sl 2 =
      if recv p < 0 then (p + 1, sl)
      else if mqttexampleMAX_SOCKET_SHUTDOWN_LOOPS ≤ c + 1 then
        (p + 1, sl + 1)
      else shutdownRecvLoop recv (c + 1) (p + 1) (sl + 1) 1 := rfl

/-- One unfolding of the shutdown receive loop at fuel 1. -/
theorem shutdownRecvLoop_step1 (recv : Nat → Int) (c p sl : Nat) :
    shutdownRecvLoop recv c p sl 1 =
      if recv p < 0 then (p + 1, sl)
      else if mqttexampleMAX_SOCKET_SHUTDOWN_LOOPS ≤ c + 1 then
        (p + 1, sl + 1)
      else shutdownRecvLoop recv (c + 1) (p + 1) (sl + 1) 0 := rfl

/-- Claim C6.  For every (valid, non-null) socket and every behaviour of
the transport's receive, graceful shutdown initiates the half-close,
polls receive at least once and at most three times, keeps polling only
while receive is non-negative, stops early only because receive reported
the connection invalid (negative), and closes the socket in every
case — reaching the poll bound is not fatal. -/
theorem claim_C6 (recv : Nat → Int) :
    (prvGracefulShutDown true true recv).didShutdown = true ∧
    (prvGracefulShutDown true true recv).didClose = true ∧
    1 ≤ (prvGracefulShutDown true true recv).polls ∧
    (prvGracefulShutDown true true recv).polls ≤ 3 ∧
    (∀ i, i + 1 < (prvGracefulShutDown true true recv).polls →
      0 ≤ recv i) ∧
    ((prvGracefulShutDown true true recv).polls < 3 →
      recv ((prvGracefulShutDown true true recv).polls - 1) < 0) := by
  have e0 : prvGracefulShutDown true true recv =
      ⟨true, (shutdownRecvLoop recv 0 0 0 3).1,
        (shutdownRecvLoop recv 0 0 0 3).2, true⟩ := rfl
  have hrun : ∀ t : Nat × Nat, shutdownRecvLoop recv 0 0 0 3 = t →
      1 ≤ t.1 ∧ t.1 ≤ 3 ∧ (∀ i, i + 1 < t.1 → 0 ≤ recv i) ∧
        (t.1 < 3 → recv (t.1 - 1) < 0) := by
    intro t ht
    rw [shutdownRecvLoop_step3] at ht
    by_cases h0 : recv 0 < 0
    · rw [if_pos h0] at ht
      subst ht
      refine ⟨by norm_num, by norm_num, ?_, fun _ => h0⟩
      intro i hi
      dsimp only at hi
      omega
    · rw [if_neg h0,
        if_neg (by norm_num [mqttexampleMAX_SOCKET_SHUTDOWN_LOOPS]),
        shutdownRecvLoop_step2] at ht
      by_cases h1 : recv (0 + 1) < 0
      · rw [if_pos h1] at ht
        subst ht
        refine ⟨by norm_num, by norm_num, ?_, fun _ => h1⟩
        intro i hi
        dsimp only at hi
        have hi0 : i = 0 := by omega
        subst hi0
        omega
      · rw [if_neg h1,
          if_neg (by norm_num [mqttexampleMAX_SOCKET_SHUTDOWN_LOOPS]),
          shutdownRecvLoop_step1] at ht
        have h1n : ¬ recv 1 < 0 := h1
        by_cases h2 : recv (0 + 1 + 1) < 0
        · rw [if_pos h2] at ht
          subst ht
          refine ⟨by norm_num, by norm_num, ?_, ?_⟩
          · intro i hi
            dsimp only at hi
            have hi01 : i = 0 ∨ i = 1 := by omega
            rcases hi01 with hi0 | hi1
            · subst hi0
              omega
            · subst hi1
              omega
          · intro hlt
            dsimp only at hlt
            omega
        · rw [if_neg h2,
            if_pos
              (by norm_num [mqttexampleMAX_SOCKET_SHUTDOWN_LOOPS])] at ht
          subst ht
          refine ⟨by norm_num, by norm_num, ?_, ?_⟩
          · intro i hi
            dsimp only at hi
            have hi01 : i = 0 ∨ i = 1 := by omega
            rcases hi01 with hi0 | hi1
            · subst hi0
              omega
            · subst hi1
              omega
          · intro hlt
            dsimp only at hlt
            omega
  rw [e0]
  obtain ⟨hp1, hp3, hmono, hneg⟩ := hrun _ rfl
  exact ⟨rfl, rfl, hp1, hp3, hmono, hneg⟩

/-- Claim C6, witness: the theorem applied to a receive that reports the
connection invalid immediately. -/
theorem claim_C6_witness :
    (prvGracefulShutDown true true (fun _ => (-1 : Int))).didClose =
      true :=
  (claim_C6 (fun _ => (-1 : Int))).2.1

/-- On the publish branch (high nibble of the type is PUBLISH, body
within the buffer) the dispatcher's result is determined by the publish
decode alone. -/
theorem dispatch_publish_eq (topic : List Nat) (ty : Nat)
    (data : List Nat) (s : GlobalState)
    (h : ty &&& 0xf0 = MQTT_PACKET_TYPE_PUBLISH)
    (h5 : ¬ mqttexampleSHARED_BUFFER_SIZE < data.length) :
    prvMQTTProcessIncomingPacket topic (.packet ty data) s =
      match MQTT_DeserializePublish ty data with
      | none => ⟨true, none, decide (0 < data.length), false, s⟩
      | some _ =>
        ⟨false, some .publish, decide (0 < data.length), false, s⟩ := by
  unfold prvMQTTProcessIncomingPacket
  dsimp only
  rw [if_neg h5, if_pos h]

/-- Claim C8.  For every incoming packet whose type's high nibble equals
PUBLISH, regardless of the body: no packet-identifier comparison is ever
performed, the packet is never routed to response handling, and whenever
no configASSERT fires it is routed to publish handling. -/
theorem claim_C8 (topic : List Nat) (ty : Nat) (data : List Nat)
    (s : GlobalState) (h : ty &&& 0xf0 = MQTT_PACKET_TYPE_PUBLISH) :
    (prvMQTTProcessIncomingPacket topic (.packet ty data) s).idCheck =
      false ∧
    (prvMQTTProcessIncomingPacket topic (.packet ty data) s).route ≠
      some Route.response ∧
    ((prvMQTTProcessIncomingPacket topic (.packet ty data) s).fatal =
        false →
      (prvMQTTProcessIncomingPacket topic (.packet ty data) s).route =
        some Route.publish) := by
  by_cases h5 : mqttexampleSHARED_BUFFER_SIZE < data.length
  · have e : prvMQTTProcessIncomingPacket topic (.packet ty data) s =
        ⟨true, none, false, false, s⟩ := by
      unfold prvMQTTProcessIncomingPacket
      dsimp only
      rw [if_pos h5]
    rw [e]
    simp
  · rw [dispatch_publish_eq topic ty data s h h5]
    cases MQTT_DeserializePublish ty data with
    | none => simp
    | some info => simp

/-- Claim C8, witness: a QoS-0 publish packet with type byte 0x30. -/
theorem claim_C8_witness :
    (prvMQTTProcessIncomingPacket [116]
      (.packet 0x30 [0, 1, 116]) sInit).idCheck = false :=
  (claim_C8 [116] 0x30 [0, 1, 116] sInit (by decide)).1

/-- Claim C10.  Processing a packet on the publish branch leaves every
piece of modelled session state unchanged: the topic-filter flags, both
remembered packet identifiers and the allocator counter are exactly as
before. -/
theorem claim_C10 (topic : List Nat) (ty : Nat) (data : List Nat)
    (s : GlobalState) (h : ty &&& 0xf0 = MQTT_PACKET_TYPE_PUBLISH) :
    (prvMQTTProcessIncomingPacket topic (.packet ty data) s).state = s := by
  by_cases h5 : mqttexampleSHARED_BUFFER_SIZE < data.length
  · unfold prvMQTTProcessIncomingPacket
    dsimp only
    rw [if_pos h5]
  · rw [dispatch_publish_eq topic ty data s h h5]
    cases MQTT_DeserializePublish ty data with
    | none => rfl
    | some info => rfl

/-- Claim C10, witness: the echoed demo publish leaves the state
untouched. -/
theorem claim_C10_witness :
    (prvMQTTProcessIncomingPacket [117]
      (.packet 0x30 [0, 1, 117, 65]) sInit).state = sInit :=
  claim_C10 [117] 0x30 [0, 1, 117, 65] sInit (by decide)

end LightWeightMQTT
